import Mathlib

/-
Verification of the storage layer of the tab-sync backend.

This file gives a shallow embedding of the multi-backend persistence layer
(`pkg/database`): the Postgres-backed structured store (`postgres.go`), the
Supabase REST store (`supabase.go`), and the backend selector
(`interface.go`).  Database tables are modelled as lists of row records,
timestamps as naturals, SQL statements and PostgREST calls as pure state
transformers.  Go `error` values are modelled by an inductive type that
records exactly the information a Go caller can inspect programmatically:
whether the value is a bare formatted string (`fmt.Errorf` without `%w`),
a wrapping error (`fmt.Errorf` with `%w`), or a package-level sentinel
(such as `sql.ErrNoRows`).

Conventions for the REST store model (PostgREST, as driven by
`supabase.go:makeRequest`): a GET/PATCH/POST with `eq.`-filters operates on
the rows matching all filters; a filtered PATCH that matches zero rows is
still an HTTP 2xx success with an empty result body, so `makeRequest`
reports an error only for transport failures and statuses >= 400
(supabase.go line 73).  Server-side failures are injected through explicit
parameters where a claim needs them.
-/

namespace TabSync

/-- Go `error` values as observable by a caller: a plain message-only error
(`fmt.Errorf` with no `%w`), a wrapping error (`fmt.Errorf` with `%w`), or a
package sentinel value comparable with `errors.Is`. -/
inductive GoError : Type
  | plain (msg : String)
  | wrapped (msg : String) (cause : GoError)
  | sentinel (name : String)
  deriving DecidableEq, Repr

/-- What remains of a Go error once every message string is erased: the only
structure a caller can branch on without inspecting message text
(wrapping via `errors.Unwrap`, sentinel identity via `errors.Is`). -/
inductive ErrShape : Type
  | plainS
  | wrappedS (cause : ErrShape)
  | sentinelS (name : String)
  deriving DecidableEq, Repr

/-- Erase all message text from a Go error, leaving its programmatically
inspectable shape. -/
def eraseMsg : GoError → ErrShape
  | .plain _ => .plainS
  | .wrapped _ c => .wrappedS (eraseMsg c)
  | .sentinel n => .sentinelS n

/-- Result of a Go call returning `(T, error)` or bare `error` (`T = Unit`). -/
inductive GoResult (α : Type) : Type
  | ok (a : α)
  | err (e : GoError)
  deriving DecidableEq, Repr

/- ===== Backend selector (interface.go) ===== -/

/-- `DatabaseConfig` (interface.go lines 107-112), without the Debug flag. -/
structure DbConfig : Type where
  postgresDSN : String
  supabaseURL : String
  supabaseKey : String
  deriving DecidableEq, Repr

/-- The three environment markers read by `isVercelEnvironment`
(interface.go lines 154-159); an unset variable reads as `""`. -/
structure EnvMarkers : Type where
  vercelEnv : String
  vercelURL : String
  awsLambda : String
  deriving DecidableEq, Repr

/-- The two constructible backends (`local.go` is unreachable from
`NewDatabase`). -/
inductive Backend : Type
  | postgres
  | supabase
  deriving DecidableEq, Repr

/-- `isVercelEnvironment` (interface.go lines 154-159). -/
def isVercelEnvironment (e : EnvMarkers) : Bool :=
  e.vercelEnv != "" || e.vercelURL != "" || e.awsLambda != ""

/-- `NewDatabase` (interface.go lines 116-151).  `none` models the two
`panic` calls (fatal configuration error). -/
def newDatabase (c : DbConfig) (e : EnvMarkers) : Option Backend :=
  if isVercelEnvironment e then
    if c.supabaseURL != "" && c.supabaseKey != "" then some Backend.supabase
    else if c.postgresDSN != "" then some Backend.postgres
    else none
  else
    if c.postgresDSN != "" then some Backend.postgres
    else if c.supabaseURL != "" && c.supabaseKey != "" then some Backend.supabase
    else none

/- ===== Entity model (pkg/models) ===== -/

/-- `models.SavedTab` (tab.go); the opaque metadata map is not modelled. -/
structure SavedTab : Type where
  id : String
  title : String
  url : String
  favIconUrl : Option String
  originalTitle : String
  domain : String
  createdAt : Nat
  lastAccessed : Option Nat
  tags : List String
  deriving DecidableEq, Repr

/-- `models.TabGroup` (tab.go). -/
structure TabGroup : Type where
  id : String
  userId : String
  name : String
  description : Option String
  createdAt : Nat
  updatedAt : Nat
  tabs : List SavedTab
  color : Option String
  autoClassify : Bool
  classificationRules : List String
  deriving DecidableEq, Repr

/-- The tab-count loop shared by both `SaveSnapshot` implementations
(postgres.go lines 243-247, supabase.go lines 475-479). -/
def tabGroupsTabCount (gs : List TabGroup) : Nat :=
  (gs.map (fun g => g.tabs.length)).sum

/-- `models.User`. -/
structure User : Type where
  id : String
  email : String
  password : String
  name : String
  avatar : String
  provider : String
  tier : String
  createdAt : Nat
  updatedAt : Nat
  deriving DecidableEq, Repr

/-- `models.Organization` (with the `Color` field scanned by postgres.go). -/
structure Organization : Type where
  id : String
  name : String
  ownerId : String
  description : String
  avatar : String
  color : String
  createdAt : Nat
  updatedAt : Nat
  deriving DecidableEq, Repr

/-- `models.Space` (space.go); note it has no deleted-at field. -/
structure Space : Type where
  id : String
  organizationId : String
  name : String
  description : String
  isDefault : Bool
  createdAt : Nat
  updatedAt : Nat
  deriving DecidableEq, Repr

/-- `models.Collection`. -/
structure Collection : Type where
  id : String
  spaceId : String
  name : String
  description : String
  color : String
  icon : String
  position : Int
  createdAt : Nat
  updatedAt : Nat
  deletedAt : Option Nat
  deriving DecidableEq, Repr

/- ===== Postgres backend state (postgres.go) ===== -/

/-- A row of `public.users`; `name`, `avatar`, `provider`, `password_hash`
are nullable (the queries wrap them in COALESCE). -/
structure PgUserRow : Type where
  id : String
  email : String
  password : Option String
  name : Option String
  avatar : Option String
  provider : Option String
  createdAt : Nat
  updatedAt : Nat
  deriving DecidableEq, Repr

/-- A row of `organizations`; `color` is nullable (COALESCE(color,'')). -/
structure PgOrgRow : Type where
  id : String
  name : String
  ownerId : String
  description : String
  avatar : String
  color : Option String
  createdAt : Nat
  updatedAt : Nat
  deriving DecidableEq, Repr

/-- A row of `spaces`; the table carries a nullable `deleted_at` column
(the list query filters on it). -/
structure PgSpaceRow : Type where
  id : String
  organizationId : String
  name : String
  description : String
  isDefault : Bool
  createdAt : Nat
  updatedAt : Nat
  deletedAt : Option Nat
  deriving DecidableEq, Repr

/-- A row of `collections`. -/
structure PgCollectionRow : Type where
  id : String
  spaceId : String
  name : String
  description : String
  color : String
  icon : String
  position : Int
  createdAt : Nat
  updatedAt : Nat
  deletedAt : Option Nat
  deriving DecidableEq, Repr

/-- A row of `collection_items`; `position` is nullable
(CreateCollectionItem inserts COALESCE($9,0)), `metadata` is a byte blob. -/
structure PgItemRow : Type where
  id : String
  collectionId : String
  title : String
  url : String
  favIconUrl : String
  originalTitle : String
  aiGeneratedTitle : String
  domain : String
  metadata : String
  position : Option Int
  createdAt : Nat
  updatedAt : Nat
  deletedAt : Option Nat
  deriving DecidableEq, Repr

/-- A row of `snapshots`; `(user_id, name)` carries a unique constraint. -/
structure PgSnapshotRow : Type where
  userId : String
  name : String
  tabGroups : List TabGroup
  groupCount : Nat
  tabCount : Nat
  createdAt : Nat
  updatedAt : Nat
  deriving DecidableEq, Repr

/-- The structured store: one list per table used by the claims. -/
structure PgState : Type where
  users : List PgUserRow
  orgs : List PgOrgRow
  spaces : List PgSpaceRow
  collections : List PgCollectionRow
  items : List PgItemRow
  snapshots : List PgSnapshotRow
  deriving DecidableEq, Repr

/-- SQL COALESCE of a nullable column with a constant default. -/
def coalesce (o : Option String) (d : String) : String := o.getD d

/-- Boolean ordered insert, used to model SQL ORDER BY. -/
def orderedInsertB {α : Type} (le : α → α → Bool) (a : α) : List α → List α
  | [] => [a]
  | b :: l => if le a b then a :: b :: l else b :: orderedInsertB le a l

/-- Boolean insertion sort, used to model SQL ORDER BY. -/
def insertionSortB {α : Type} (le : α → α → Bool) : List α → List α
  | [] => []
  | a :: l => orderedInsertB le a (insertionSortB le l)

/- ===== Postgres backend operations ===== -/

/-- `PostgresDatabase.GetUserByEmail` (postgres.go lines 117-138): selects
id, email, COALESCE(name,''), COALESCE(avatar,''), COALESCE(provider,'email'),
COALESCE(password_hash,''); `QueryRow` yields the first matching row and
`sql.ErrNoRows` becomes the plain error `user not found`.  The unselected
`tier` field keeps its Go zero value. -/
def pgGetUserByEmail (st : PgState) (email : String) : GoResult User :=
  match st.users.find? (fun r => r.email == email) with
  | none => .err (.plain "user not found")
  | some r => .ok
      { id := r.id, email := r.email,
        password := coalesce r.password "",
        name := coalesce r.name "",
        avatar := coalesce r.avatar "",
        provider := coalesce r.provider "email",
        tier := "",
        createdAt := r.createdAt, updatedAt := r.updatedAt }

/-- `PostgresDatabase.GetUserByID` (postgres.go lines 141-164): selects only
id, email, created_at, updated_at; afterwards hard-codes
`user.Provider = "email"`.  All other fields keep their Go zero values. -/
def pgGetUserByID (st : PgState) (id : String) : GoResult User :=
  match st.users.find? (fun r => r.id == id) with
  | none => .err (.plain "user not found")
  | some r => .ok
      { id := r.id, email := r.email,
        password := "", name := "", avatar := "",
        provider := "email", tier := "",
        createdAt := r.createdAt, updatedAt := r.updatedAt }

/-- `PostgresDatabase.UpdateUser` (postgres.go lines 167-184): rejects an
empty id, then runs UPDATE ... WHERE id=$4 via `Exec` without checking
`RowsAffected`; the `$3` provider parameter is a non-null Go string, so
`COALESCE($3, provider)` always takes `$3`.  The second component is the
resulting store. -/
def pgUpdateUser (st : PgState) (u : User) (now : Nat) :
    GoResult Unit × PgState :=
  if u.id = "" then (.err (.plain "user ID is required for update"), st)
  else
    (.ok (), { st with users := st.users.map (fun r =>
      if r.id == u.id then
        { r with name := some u.name, avatar := some u.avatar,
                 provider := some u.provider, updatedAt := now }
      else r) })

/-- `PostgresDatabase.GetOrganization` (postgres.go lines 486-497).
`queryFailure` injects a driver error for the non-`ErrNoRows` branch, which
wraps it with `%w`; an absent row yields the plain `organization not found`. -/
def pgGetOrganization (st : PgState) (orgID : String)
    (queryFailure : Option GoError) : GoResult Organization :=
  match queryFailure with
  | some e => .err (.wrapped "failed to get organization" e)
  | none =>
    match st.orgs.find? (fun r => r.id == orgID) with
    | none => .err (.plain "organization not found")
    | some r => .ok
        { id := r.id, name := r.name, ownerId := r.ownerId,
          description := r.description, avatar := r.avatar,
          color := coalesce r.color "",
          createdAt := r.createdAt, updatedAt := r.updatedAt }

/-- Projection of a `spaces` row into `models.Space` (the scan targets of
`ListSpacesByOrganization`). -/
def pgToSpace (r : PgSpaceRow) : Space :=
  { id := r.id, organizationId := r.organizationId, name := r.name,
    description := r.description, isDefault := r.isDefault,
    createdAt := r.createdAt, updatedAt := r.updatedAt }

/-- `PostgresDatabase.ListSpacesByOrganization` (postgres.go lines 563-578):
WHERE organization_id = $1 AND deleted_at IS NULL ORDER BY created_at ASC. -/
def pgListSpacesByOrganization (st : PgState) (orgID : String) : List Space :=
  (insertionSortB (fun a b => Nat.ble a.createdAt b.createdAt)
    (st.spaces.filter (fun r =>
      r.organizationId == orgID && r.deletedAt == none))).map pgToSpace

/-- `PostgresDatabase.UpdateSpace` (postgres.go lines 580-583): one `Exec`,
no RowsAffected check, error only on backend failure. -/
def pgUpdateSpace (st : PgState) (s : Space) (now : Nat) :
    GoResult Unit × PgState :=
  (.ok (), { st with spaces := st.spaces.map (fun r =>
    if r.id == s.id then
      { r with name := s.name, description := s.description,
               isDefault := s.isDefault, updatedAt := now }
    else r) })

/-- `PostgresDatabase.DeleteSpace` (postgres.go lines 596-602):
`DELETE FROM spaces WHERE id=$1` — the row is removed outright. -/
def pgDeleteSpace (st : PgState) (spaceID : String) :
    GoResult Unit × PgState :=
  (.ok (), { st with spaces := st.spaces.filter (fun r => !(r.id == spaceID)) })

/-- Projection of a `collections` row into `models.Collection`; the SELECT
list of `ListCollectionsBySpace`/`GetCollection` includes `deleted_at`. -/
def pgToCollection (r : PgCollectionRow) : Collection :=
  { id := r.id, spaceId := r.spaceId, name := r.name,
    description := r.description, color := r.color, icon := r.icon,
    position := r.position, createdAt := r.createdAt,
    updatedAt := r.updatedAt, deletedAt := r.deletedAt }

/-- ORDER BY position ASC, created_at ASC. -/
def collectionOrder (a b : PgCollectionRow) : Bool :=
  if a.position < b.position then true
  else if a.position == b.position then Nat.ble a.createdAt b.createdAt
  else false

/-- `PostgresDatabase.ListCollectionsBySpace` (postgres.go lines 679-692):
WHERE space_id=$1 ORDER BY position ASC, created_at ASC — note there is no
`deleted_at` condition; tombstoned rows are returned with `deleted_at` set. -/
def pgListCollectionsBySpace (st : PgState) (spaceID : String) :
    List Collection :=
  (insertionSortB collectionOrder
    (st.collections.filter (fun r => r.spaceId == spaceID))).map pgToCollection

/-- Failure injection points for the `DeleteCollection` transaction: any of
`db.Begin`, the two `tx.Exec` statements, or `tx.Commit` may fail. -/
inductive DelStep : Type
  | noFail
  | failBegin
  | failCollections
  | failItems
  | failCommit
  deriving DecidableEq, Repr

/-- `PostgresDatabase.DeleteCollection` (postgres.go lines 658-677): inside
one transaction, soft-delete the collection, roll back with
`collection not found` if no row was affected, cascade the soft delete to
`collection_items`, then commit.  A rollback (any error path) leaves the
store unchanged: the pair's second component is the store after the call. -/
def pgDeleteCollection (st : PgState) (id : String) (now : Nat)
    (fail : DelStep) : GoResult Unit × PgState :=
  if fail = .failBegin then (.err (.plain "begin failed"), st)
  else if fail = .failCollections then (.err (.plain "exec failed"), st)
  else
    let matched := st.collections.filter (fun c => c.id == id)
    let tx1 : PgState :=
      { st with collections := st.collections.map (fun c =>
          if c.id == id then { c with deletedAt := some now, updatedAt := now }
          else c) }
    if matched.length = 0 then (.err (.plain "collection not found"), st)
    else if fail = .failItems then (.err (.plain "exec failed"), st)
    else
      let tx2 : PgState :=
        { tx1 with items := tx1.items.map (fun it =>
            if it.collectionId == id then
              { it with deletedAt := some now, updatedAt := now }
            else it) }
      if fail = .failCommit then (.err (.plain "commit failed"), st)
      else (.ok (), tx2)

/-- Predicate selecting the snapshot row of one `(user_id, name)` key. -/
def snapMatch (u n : String) (r : PgSnapshotRow) : Bool :=
  r.userId == u && r.name == n

/-- Insert-or-update semantics on a table: if some row satisfies `p`
(a conflict on the relevant unique key), update the matching rows with `f`;
otherwise append the fresh row `new`. -/
def listUpsert {α : Type} (p : α → Bool) (f : α → α) (new : α)
    (l : List α) : List α :=
  if l.any p then l.map (fun a => if p a then f a else a) else l ++ [new]

/-- `PostgresDatabase.SaveSnapshot` (postgres.go lines 241-274):
INSERT ... ON CONFLICT (user_id, name) DO UPDATE SET tab_groups, group_count,
tab_count, updated_at.  Under the table's unique constraint a conflict is
exactly an existing row with the same key, so the statement is the
`listUpsert` of the key predicate. -/
def pgSaveSnapshot (st : PgState) (u n : String) (gs : List TabGroup)
    (now : Nat) : PgState :=
  let gc := gs.length
  let tc := tabGroupsTabCount gs
  { st with snapshots :=
      (listUpsert (snapMatch u n)
        (fun r => { r with tabGroups := gs, groupCount := gc, tabCount := tc,
                           updatedAt := now })
        { userId := u, name := n, tabGroups := gs, groupCount := gc,
          tabCount := tc, createdAt := now, updatedAt := now }
        st.snapshots) }

/- ===== Sparse item update (UpdateCollectionItemPartial) ===== -/

/-- Model of Go `strings.TrimSpace`: drop whitespace characters from both
ends (structurally recursive, unlike `String.trim`, so that concrete
instances reduce). -/
def goTrimSpace (s : String) : String :=
  ⟨((s.data.dropWhile Char.isWhitespace).reverse.dropWhile
      Char.isWhitespace).reverse⟩

/-- A Go `interface\x7b\x7d` value as it reaches the patch map: JSON null,
a string, a number, or a byte slice. -/
inductive GoVal : Type
  | null
  | str (s : String)
  | num (n : Int)
  | bytes (b : String)
  deriving DecidableEq, Repr

/-- Model of `json.Marshal` on patch values (only the `metadata` case of the
switch marshals a non-byte value). -/
def goJsonMarshal : GoVal → String
  | .null => "null"
  | .str s => "\"" ++ s ++ "\""
  | .num n => toString n
  | .bytes b => b

/-- The fixed field whitelist of `UpdateCollectionItemPartial`
(postgres.go lines 739-766, also documented in interface.go lines 50-53). -/
def itemFieldWhitelist : List String :=
  ["collection_id", "title", "url", "fav_icon_url", "original_title",
   "ai_generated_title", "domain", "metadata", "position"]

/-- One iteration of the whitelist switch (postgres.go lines 739-767): the
SET clauses contributed by a single patch key.  `collection_id` is taken only
for a non-blank string; the six text fields only when non-nil; `metadata`
always (marshalling non-byte values); `position` unconditionally; any other
key contributes nothing. -/
def clauseFor (k : String) (v : GoVal) : List (String × GoVal) :=
  if k = "collection_id" then
    match v with
    | .str s => if goTrimSpace s ≠ "" then [(k, v)] else []
    | _ => []
  else if k = "title" || k = "url" || k = "fav_icon_url" ||
      k = "original_title" || k = "ai_generated_title" || k = "domain" then
    if v ≠ .null then [(k, v)] else []
  else if k = "metadata" then
    match v with
    | .bytes b => [(k, .bytes b)]
    | _ => [(k, .bytes (goJsonMarshal v))]
  else if k = "position" then [(k, v)]
  else []

/-- The full dynamic SET clause list built from the patch map (the `for k, v
:= range patch` loop).  The map is modelled as an association list; each key
is handled independently, so iteration order does not matter for any claim. -/
def collectClauses : List (String × GoVal) → List (String × GoVal)
  | [] => []
  | (k, v) :: rest => clauseFor k v ++ collectClauses rest

/-- Coerce a patch value into a text column, keeping the old value when the
value is not a string (a non-string would be a driver type error; the claims
only quantify over well-typed patches). -/
def goStr (v : GoVal) (old : String) : String :=
  match v with
  | .str s => s
  | _ => old

/-- Coerce a patch value into the bytea `metadata` column. -/
def goBytes (v : GoVal) (old : String) : String :=
  match v with
  | .bytes b => b
  | _ => old

/-- Coerce a patch value into the nullable integer `position` column. -/
def goOptInt (v : GoVal) (old : Option Int) : Option Int :=
  match v with
  | .num n => some n
  | .null => none
  | _ => old

/-- Apply one SET clause to an item row. -/
def applyClause (r : PgItemRow) (c : String × GoVal) : PgItemRow :=
  if c.1 = "collection_id" then { r with collectionId := goStr c.2 r.collectionId }
  else if c.1 = "title" then { r with title := goStr c.2 r.title }
  else if c.1 = "url" then { r with url := goStr c.2 r.url }
  else if c.1 = "fav_icon_url" then { r with favIconUrl := goStr c.2 r.favIconUrl }
  else if c.1 = "original_title" then { r with originalTitle := goStr c.2 r.originalTitle }
  else if c.1 = "ai_generated_title" then { r with aiGeneratedTitle := goStr c.2 r.aiGeneratedTitle }
  else if c.1 = "domain" then { r with domain := goStr c.2 r.domain }
  else if c.1 = "metadata" then { r with metadata := goBytes c.2 r.metadata }
  else if c.1 = "position" then { r with position := goOptInt c.2 r.position }
  else r

/-- Apply all SET clauses in order. -/
def applyClauses (r : PgItemRow) (cs : List (String × GoVal)) : PgItemRow :=
  cs.foldl applyClause r

/-- `PostgresDatabase.UpdateCollectionItemPartial` (postgres.go lines
725-780, declared in interface.go line 53): reject a blank item id; build
the SET clauses from the whitelist switch; if none were produced return nil
without touching the store (`len(setClauses) == 0`); otherwise run a single
UPDATE on the rows with the given id, additionally setting
`updated_at=NOW()`. -/
def pgUpdateItemSparse (st : PgState) (itemID : String)
    (patch : List (String × GoVal)) (now : Nat) : GoResult Unit × PgState :=
  if goTrimSpace itemID = "" then (.err (.plain "item id required"), st)
  else
    let cs := collectClauses patch
    if cs.isEmpty then (.ok (), st)
    else
      (.ok (), { st with items := st.items.map (fun r =>
        if r.id == itemID then { applyClauses r cs with updatedAt := now }
        else r) })

/- ===== Collections HTTP handler filter ===== -/

/-- The incremental/tombstone filter of the collections list HTTP handler
(`CollectionsHandler.ListCollections`): with no `since` parameter only rows
with a null `deleted_at` are kept; with `since` it keeps rows updated after
the cutoff or tombstoned after the cutoff. -/
def handlerFilterCollections (list : List Collection) (since : Option Nat) :
    List Collection :=
  list.filter (fun c =>
    match since with
    | none => c.deletedAt == none
    | some t =>
      decide (t < c.updatedAt) ||
        (match c.deletedAt with
         | some d => decide (t < d)
         | none => false))

/- ===== Supabase REST backend state (supabase.go) ===== -/

/-- A server-side row of the `spaces` REST resource; the table carries
`deleted_at` even though `models.Space` has no such field. -/
structure RestSpaceRow : Type where
  id : String
  organizationId : String
  name : String
  description : String
  isDefault : Bool
  createdAt : Nat
  updatedAt : Nat
  deletedAt : Option Nat
  deriving DecidableEq, Repr

/-- A server-side row of `space_permissions`, as touched by the
`SetSpacePermission` payloads. -/
structure RestPermRow : Type where
  spaceId : String
  userId : String
  canEdit : Bool
  deriving DecidableEq, Repr

/-- A server-side row of `snapshots`. -/
structure RestSnapshotRow : Type where
  userId : String
  name : String
  tabGroups : List TabGroup
  groupCount : Nat
  tabCount : Nat
  createdAt : Nat
  updatedAt : Nat
  deriving DecidableEq, Repr

/-- A server-side row of `organizations`. -/
structure RestOrgRow : Type where
  id : String
  name : String
  ownerId : String
  description : String
  avatar : String
  color : String
  createdAt : Nat
  updatedAt : Nat
  deriving DecidableEq, Repr

/-- A server-side row of `users`, as touched by the `UpdateUser` payload. -/
structure RestUserRow : Type where
  id : String
  email : String
  name : String
  avatar : String
  provider : String
  tier : String
  createdAt : Nat
  updatedAt : Nat
  deriving DecidableEq, Repr

/-- The REST store. -/
structure RestState : Type where
  spaces : List RestSpaceRow
  perms : List RestPermRow
  snapshots : List RestSnapshotRow
  orgs : List RestOrgRow
  users : List RestUserRow
  deriving DecidableEq, Repr

/-- JSON decoding of a spaces row into `models.Space` (which silently drops
any `deleted_at` member). -/
def restToSpace (r : RestSpaceRow) : Space :=
  { id := r.id, organizationId := r.organizationId, name := r.name,
    description := r.description, isDefault := r.isDefault,
    createdAt := r.createdAt, updatedAt := r.updatedAt }

/-- `SupabaseDatabase.ListSpacesByOrganization` (supabase.go lines 223-229):
GET /spaces?organization_id=eq.ORG&select=* — the only filter is on
`organization_id`; no `deleted_at` condition is sent. -/
def sbListSpacesByOrganization (st : RestState) (orgID : String) :
    List Space :=
  (st.spaces.filter (fun r => r.organizationId == orgID)).map restToSpace

/-- `SupabaseDatabase.SetSpacePermission` (supabase.go lines 240-251): a
filtered PATCH on `(space_id, user_id)`, then POST only if the PATCH call
returned an error.  `patchRequestFails` injects a transport failure or a
>= 400 status on the PATCH; a PATCH matching zero rows is an HTTP 200 with
an empty body, hence NOT an error, so the POST branch does not run then. -/
def sbSetSpacePermission (st : RestState) (spaceID userID : String)
    (canEdit : Bool) (patchRequestFails : Bool) : GoResult Unit × RestState :=
  if patchRequestFails then
    (.ok (), { st with perms := st.perms ++
      [{ spaceId := spaceID, userId := userID, canEdit := canEdit }] })
  else
    (.ok (), { st with perms := st.perms.map (fun r =>
      if r.spaceId == spaceID && r.userId == userID then
        { r with canEdit := canEdit }
      else r) })

/-- Predicate selecting the REST snapshot rows of one `(user_id, name)`. -/
def restSnapMatch (u n : String) (r : RestSnapshotRow) : Bool :=
  r.userId == u && r.name == n

/-- `SupabaseDatabase.SaveSnapshot` (supabase.go lines 473-520): look the
snapshot up by `(user_id, name)` (`getSnapshotByName`, an eq-filtered GET
that errors on an empty result); if found, PATCH the filtered rows with the
full payload (user_id, name, tab_groups, group_count, tab_count,
updated_at); otherwise POST a new row. -/
def sbSaveSnapshot (st : RestState) (u n : String) (gs : List TabGroup)
    (now : Nat) : RestState :=
  let gc := gs.length
  let tc := tabGroupsTabCount gs
  { st with snapshots :=
      (listUpsert (restSnapMatch u n)
        (fun r => { r with userId := u, name := n, tabGroups := gs,
                           groupCount := gc, tabCount := tc,
                           updatedAt := now })
        { userId := u, name := n, tabGroups := gs, groupCount := gc,
          tabCount := tc, createdAt := now, updatedAt := now }
        st.snapshots) }

/-- `SupabaseDatabase.GetOrganization` (supabase.go lines 180-186).
`httpFailure = some (code, body)` injects a failing response, which
`makeRequest` turns into the plain error
`API request failed with status CODE: BODY` (supabase.go line 74); an empty
result list yields the plain `organization not found`. -/
def sbGetOrganization (st : RestState) (orgID : String)
    (httpFailure : Option (Nat × String)) : GoResult Organization :=
  match httpFailure with
  | some (code, body) =>
    .err (.plain ("API request failed with status " ++ toString code ++
      ": " ++ body))
  | none =>
    match st.orgs.filter (fun r => r.id == orgID) with
    | [] => .err (.plain "organization not found")
    | r :: _ => .ok
        { id := r.id, name := r.name, ownerId := r.ownerId,
          description := r.description, avatar := r.avatar, color := r.color,
          createdAt := r.createdAt, updatedAt := r.updatedAt }

/-- `SupabaseDatabase.UpdateUser` (supabase.go lines 415-433): one PATCH on
`users?id=eq.ID` setting name, avatar, provider, tier, updated_at (taken
from the entity).  A PATCH matching zero rows is still a success, so the
call reports no error for an absent id. -/
def sbUpdateUser (st : RestState) (u : User) : GoResult Unit × RestState :=
  (.ok (), { st with users := st.users.map (fun r =>
    if r.id == u.id then
      { r with name := u.name, avatar := u.avatar, provider := u.provider,
               tier := u.tier, updatedAt := u.updatedAt }
    else r) })

/- ===== Key-uniqueness invariants (declared unique constraints) ===== -/

/-- The `(user_id, name)` unique constraint on the `snapshots` table. -/
def snapKeyUnique (l : List PgSnapshotRow) : Prop :=
  l.Pairwise (fun a b => (a.userId, a.name) ≠ (b.userId, b.name))

/-- The `(user_id, name)` uniqueness invariant on the REST snapshots. -/
def restSnapKeyUnique (l : List RestSnapshotRow) : Prop :=
  l.Pairwise (fun a b => (a.userId, a.name) ≠ (b.userId, b.name))

/- ===== Per-claim properties ===== -/

/-- Amended soft-delete visibility (claim C1): the Postgres space listing
only surfaces rows whose `deleted_at` is null. -/
def c1SpacesExcludeDeleted (st : PgState) (orgID : String) : Prop :=
  ∀ sp ∈ pgListSpacesByOrganization st orgID,
    ∃ r ∈ st.spaces,
      r.organizationId = orgID ∧ r.deletedAt = none ∧ sp = pgToSpace r

/-- Amended soft-delete visibility (claim C1): the Postgres collection
listing keeps every row of the space, tombstones included. -/
def c1CollectionsKeepTombstones (st : PgState) (spaceID : String) : Prop :=
  ∀ r ∈ st.collections, r.spaceId = spaceID →
    pgToCollection r ∈ pgListCollectionsBySpace st spaceID

/-- Amended soft-delete visibility (claim C1): the HTTP handler's no-since
filter is what drops the tombstones. -/
def c1HandlerDropsTombstones (list : List Collection) : Prop :=
  ∀ c, c ∈ handlerFilterCollections list none ↔
    c ∈ list ∧ c.deletedAt = none

/-- Amended soft-delete visibility (claim C1): the REST space listing sends
no `deleted_at` filter, so soft-deleted rows are returned as well. -/
def c1RestSpacesNoFilter (rst : RestState) (orgID : String) : Prop :=
  ∀ r ∈ rst.spaces, r.organizationId = orgID →
    restToSpace r ∈ sbListSpacesByOrganization rst orgID

/-- Exactly one Postgres snapshot row for `(u, n)`, holding `gs` with the
recomputed aggregate counts (claim C2). -/
def pgOneSnapshotWith (st : PgState) (u n : String) (gs : List TabGroup) :
    Prop :=
  st.snapshots.countP (snapMatch u n) = 1 ∧
  ∀ r ∈ st.snapshots, snapMatch u n r = true →
    r.tabGroups = gs ∧ r.groupCount = gs.length ∧
    r.tabCount = tabGroupsTabCount gs

/-- Exactly one REST snapshot row for `(u, n)`, holding `gs` with the
recomputed aggregate counts (claim C2). -/
def restOneSnapshotWith (st : RestState) (u n : String)
    (gs : List TabGroup) : Prop :=
  st.snapshots.countP (restSnapMatch u n) = 1 ∧
  ∀ r ∈ st.snapshots, restSnapMatch u n r = true →
    r.tabGroups = gs ∧ r.groupCount = gs.length ∧
    r.tabCount = tabGroupsTabCount gs

/-- Amended update-miss behaviour (claim C3): an update whose id matches no
row reports success and leaves the store unchanged, and no update ever
changes the number of rows (so nothing is silently created). -/
def c3UpdateMissingIsNoop (stP : PgState) (rst : RestState) (u : User)
    (s : Space) (now : Nat) : Prop :=
  (u.id ≠ "" → stP.users.all (fun r => !(r.id == u.id)) = true →
    pgUpdateUser stP u now = (.ok (), stP)) ∧
  (stP.spaces.all (fun r => !(r.id == s.id)) = true →
    pgUpdateSpace stP s now = (.ok (), stP)) ∧
  (rst.users.all (fun r => !(r.id == u.id)) = true →
    sbUpdateUser rst u = (.ok (), rst)) ∧
  (pgUpdateUser stP u now).2.users.length = stP.users.length ∧
  (pgUpdateSpace stP s now).2.spaces.length = stP.spaces.length ∧
  (sbUpdateUser rst u).2.users.length = rst.users.length

/-- Amended delete behaviour (claim C4): `DeleteSpace` removes the row
outright — afterwards no row with the id remains, every other row is kept,
and the call reports success. -/
def c4HardDelete (st : PgState) (spaceID : String) : Prop :=
  (pgDeleteSpace st spaceID).1 = .ok () ∧
  (∀ r ∈ (pgDeleteSpace st spaceID).2.spaces, r.id ≠ spaceID) ∧
  (∀ r ∈ st.spaces, r.id ≠ spaceID →
    r ∈ (pgDeleteSpace st spaceID).2.spaces)

/-- All-or-nothing cascade (claim C5): on success the collection row exists
and is tombstoned and every one of its items is tombstoned; on any error
the store is exactly the original one; a missing collection always errors. -/
def c5CascadeAtomic (st : PgState) (id : String) (now : Nat)
    (fail : DelStep) : Prop :=
  ((pgDeleteCollection st id now fail).1 = .ok () →
    (∃ c ∈ st.collections, c.id = id) ∧
    (∀ c ∈ (pgDeleteCollection st id now fail).2.collections,
      c.id = id → c.deletedAt = some now) ∧
    (∃ c ∈ (pgDeleteCollection st id now fail).2.collections, c.id = id) ∧
    (∀ it ∈ (pgDeleteCollection st id now fail).2.items,
      it.collectionId = id → it.deletedAt = some now)) ∧
  (∀ e, (pgDeleteCollection st id now fail).1 = .err e →
    (pgDeleteCollection st id now fail).2 = st) ∧
  (st.collections.all (fun c => !(c.id == id)) = true →
    ∃ e, (pgDeleteCollection st id now fail).1 = .err e)

/-- Backend-selection precedence (claim C7). -/
def c7SelectorPrecedence (c : DbConfig) (e : EnvMarkers) : Prop :=
  (isVercelEnvironment e = true ↔
    (e.vercelEnv ≠ "" ∨ e.vercelURL ≠ "" ∨ e.awsLambda ≠ "")) ∧
  (isVercelEnvironment e = true →
    ((c.supabaseURL ≠ "" ∧ c.supabaseKey ≠ "") →
      newDatabase c e = some Backend.supabase) ∧
    (¬ (c.supabaseURL ≠ "" ∧ c.supabaseKey ≠ "") → c.postgresDSN ≠ "" →
      newDatabase c e = some Backend.postgres)) ∧
  (isVercelEnvironment e = false →
    (c.postgresDSN ≠ "" → newDatabase c e = some Backend.postgres) ∧
    (c.postgresDSN = "" → (c.supabaseURL ≠ "" ∧ c.supabaseKey ≠ "") →
      newDatabase c e = some Backend.supabase)) ∧
  ((c.postgresDSN = "" ∧ (c.supabaseURL = "" ∨ c.supabaseKey = "")) →
    newDatabase c e = none)

/-- Whether the patch map names a key at all. -/
def patchHasKey (patch : List (String × GoVal)) (k : String) : Bool :=
  patch.any (fun kv => kv.1 == k)

/-- Whitelist/frame behaviour of the sparse item update (claim C8). -/
def c8SparseUpdateOK (st : PgState) (itemID : String)
    (patch : List (String × GoVal)) (now : Nat) : Prop :=
  (pgUpdateItemSparse st itemID patch now).1 = .ok () ∧
  pgUpdateItemSparse st itemID patch now =
    pgUpdateItemSparse st itemID
      (patch.filter (fun kv => itemFieldWhitelist.contains kv.1)) now ∧
  (patch.all (fun kv => !(itemFieldWhitelist.contains kv.1)) = true →
    pgUpdateItemSparse st itemID patch now = (.ok (), st)) ∧
  (collectClauses patch = [] →
    pgUpdateItemSparse st itemID patch now = (.ok (), st)) ∧
  (∀ (i : Nat) r, st.items[i]? = some r → r.id ≠ itemID →
    (pgUpdateItemSparse st itemID patch now).2.items[i]? = some r) ∧
  (∀ (i : Nat) r, st.items[i]? = some r → r.id = itemID →
    ∃ r', (pgUpdateItemSparse st itemID patch now).2.items[i]? = some r' ∧
      r'.id = r.id ∧ r'.createdAt = r.createdAt ∧
      r'.deletedAt = r.deletedAt ∧
      (patchHasKey patch "collection_id" = false →
        r'.collectionId = r.collectionId) ∧
      (patchHasKey patch "title" = false → r'.title = r.title) ∧
      (patchHasKey patch "url" = false → r'.url = r.url) ∧
      (patchHasKey patch "fav_icon_url" = false →
        r'.favIconUrl = r.favIconUrl) ∧
      (patchHasKey patch "original_title" = false →
        r'.originalTitle = r.originalTitle) ∧
      (patchHasKey patch "ai_generated_title" = false →
        r'.aiGeneratedTitle = r.aiGeneratedTitle) ∧
      (patchHasKey patch "domain" = false → r'.domain = r.domain) ∧
      (patchHasKey patch "metadata" = false → r'.metadata = r.metadata) ∧
      (patchHasKey patch "position" = false → r'.position = r.position) ∧
      (collectClauses patch ≠ [] → r'.updatedAt = now) ∧
      (collectClauses patch = [] → r' = r))

/-- Amended error taxonomy (claim C9): the exact error values of the
organization reads — not-found is a plain message on both backends, the
Postgres query failure wraps its cause, the REST HTTP failure is another
plain message; after erasing message text the REST pair coincides while the
Postgres pair differs. -/
def c9ErrorTaxonomy (stP : PgState) (rst : RestState) (orgID : String)
    (cause : GoError) (code : Nat) (body : String) : Prop :=
  (stP.orgs.all (fun r => !(r.id == orgID)) = true →
    pgGetOrganization stP orgID none = .err (.plain "organization not found")) ∧
  pgGetOrganization stP orgID (some cause) =
    .err (.wrapped "failed to get organization" cause) ∧
  (rst.orgs.all (fun r => !(r.id == orgID)) = true →
    sbGetOrganization rst orgID none = .err (.plain "organization not found")) ∧
  sbGetOrganization rst orgID (some (code, body)) =
    .err (.plain ("API request failed with status " ++ toString code ++
      ": " ++ body)) ∧
  eraseMsg (.plain "organization not found") =
    eraseMsg (.plain ("API request failed with status " ++ toString code ++
      ": " ++ body)) ∧
  eraseMsg (.plain "organization not found") ≠
    eraseMsg (.wrapped "failed to get organization" cause)

/-- Field population of the Postgres user reads (claim C10): `GetUserByID`
returns only id/email/timestamps with provider hard-coded to `email`, while
`GetUserByEmail` returns the stored provider, so the two disagree for any
stored provider other than `email`. -/
def c10ProviderMismatch (st : PgState) (id em : String) (r : PgUserRow)
    (p : String) : Prop :=
  (st.users.find? (fun x => x.id == id) = some r →
    ∃ u, pgGetUserByID st id = .ok u ∧ u.id = r.id ∧ u.email = r.email ∧
      u.createdAt = r.createdAt ∧ u.updatedAt = r.updatedAt ∧
      u.provider = "email" ∧ u.name = "" ∧ u.avatar = "" ∧
      u.password = "") ∧
  (st.users.find? (fun x => x.email == em) = some r → r.provider = some p →
    ∃ u, pgGetUserByEmail st em = .ok u ∧ u.provider = p ∧
      u.name = coalesce r.name "" ∧ u.avatar = coalesce r.avatar "") ∧
  (st.users.find? (fun x => x.id == id) = some r →
    st.users.find? (fun x => x.email == em) = some r →
    r.provider = some p → p ≠ "email" →
    ∃ u1 u2, pgGetUserByID st id = .ok u1 ∧
      pgGetUserByEmail st em = .ok u2 ∧ u1.provider ≠ u2.provider)

/- ===== Concrete fixtures for witnesses and counterexamples ===== -/

/-- Empty structured store. -/
def emptyPg : PgState := ⟨[], [], [], [], [], []⟩

/-- Empty REST store. -/
def emptyRest : RestState := ⟨[], [], [], [], []⟩

/-- A sample saved tab. -/
def tabA : SavedTab := ⟨"t1", "A", "http://a", none, "A", "a", 0, none, []⟩

/-- A one-tab group. -/
def groupOne : TabGroup := ⟨"g1", "u1", "G1", none, 0, 0, [tabA], none, false, []⟩

/-- A two-tab group. -/
def groupTwo : TabGroup :=
  ⟨"g2", "u1", "G2", none, 0, 0, [tabA, tabA], none, false, []⟩

/-- A stored user whose provider is `google`. -/
def userRow1 : PgUserRow :=
  ⟨"u1", "a@b.com", some "pw", some "Nm", some "Av", some "google", 1, 2⟩

/-- A stored organization. -/
def orgRow1 : PgOrgRow := ⟨"o1", "Org", "u1", "", "", none, 1, 1⟩

/-- A live space under `o1`. -/
def spaceRow1 : PgSpaceRow := ⟨"s1", "o1", "Main", "", true, 1, 1, none⟩

/-- A soft-deleted space under `o1`. -/
def spaceRow2 : PgSpaceRow := ⟨"s2", "o1", "Old", "", false, 2, 2, some 3⟩

/-- A live collection under `s1`. -/
def collRow1 : PgCollectionRow := ⟨"c1", "s1", "C", "", "", "", 0, 1, 1, none⟩

/-- Two items of `c1` and one of another collection. -/
def itemRow1 : PgItemRow :=
  ⟨"i1", "c1", "T1", "http://u1", "", "", "", "", "m", some 0, 1, 1, none⟩

def itemRow2 : PgItemRow :=
  ⟨"i2", "c1", "T2", "http://u2", "", "", "", "", "m", some 1, 1, 1, none⟩

def itemRow3 : PgItemRow :=
  ⟨"i3", "c9", "T3", "http://u3", "", "", "", "", "m", some 0, 1, 1, none⟩

/-- A populated structured store used by the witnesses. -/
def pgFix : PgState :=
  ⟨[userRow1], [orgRow1], [spaceRow1, spaceRow2], [collRow1],
   [itemRow1, itemRow2, itemRow3], []⟩

/-- REST rows mirroring the fixture, including a tombstoned space. -/
def restSpaceRow1 : RestSpaceRow := ⟨"s1", "o1", "Main", "", true, 1, 1, none⟩

def restSpaceRow2 : RestSpaceRow :=
  ⟨"s2", "o1", "Old", "", false, 2, 2, some 3⟩

def restOrgRow1 : RestOrgRow := ⟨"o1", "Org", "u1", "", "", "", 1, 1⟩

def restUserRow1 : RestUserRow :=
  ⟨"u1", "a@b.com", "Nm", "Av", "google", "free", 1, 2⟩

/-- A populated REST store used by the witnesses. -/
def restFix : RestState :=
  ⟨[restSpaceRow1, restSpaceRow2], [], [], [restOrgRow1], [restUserRow1]⟩

/- ===== Helper lemmas ===== -/

theorem mem_orderedInsertB {α : Type} (le : α → α → Bool) (a x : α) :
    ∀ l : List α, x ∈ orderedInsertB le a l ↔ x = a ∨ x ∈ l
  | [] => by simp [orderedInsertB]
  | b :: l => by
      simp only [orderedInsertB]
      split
      · simp [List.mem_cons]
      · simp only [List.mem_cons, mem_orderedInsertB le a x l]
        tauto

theorem mem_insertionSortB {α : Type} (le : α → α → Bool) (x : α) :
    ∀ l : List α, x ∈ insertionSortB le l ↔ x ∈ l
  | [] => Iff.rfl
  | a :: l => by
      simp only [insertionSortB, mem_orderedInsertB, List.mem_cons,
        mem_insertionSortB le x l]

theorem map_eq_self_on {α : Type} {l : List α} {f : α → α}
    (h : ∀ a ∈ l, f a = a) : l.map f = l := by
  induction l with
  | nil => rfl
  | cons a l ih =>
    simp only [List.map_cons, h a (by simp)]
    rw [ih (fun b hb => h b (by simp [hb]))]

theorem countP_guardedMap {α : Type} {p : α → Bool} {f : α → α}
    (hf : ∀ a, p a = true → p (f a) = true) :
    ∀ l : List α,
      (l.map (fun a => if p a then f a else a)).countP p = l.countP p
  | [] => rfl
  | a :: l => by
      by_cases h : p a = true
      · simp [List.countP_cons, h, hf a h, countP_guardedMap hf l]
      · have h' : p a = false := by simpa using h
        simp [List.countP_cons, h', countP_guardedMap hf l]

theorem countP_le_one_of_key_pairwise {α β : Type} {k : α → β}
    {p : α → Bool} (hp : ∀ a b, p a = true → p b = true → k a = k b) :
    ∀ {l : List α}, l.Pairwise (fun a b => k a ≠ k b) → l.countP p ≤ 1
  | [], _ => by simp
  | a :: l, h => by
      rcases List.pairwise_cons.mp h with ⟨ha, hl⟩
      by_cases hpa : p a = true
      · have hz : l.countP p = 0 := by
          refine List.countP_eq_zero.mpr (fun b hb hpb => ?_)
          exact ha b hb (hp a b hpa hpb)
        simp [List.countP_cons, hpa, hz]
      · have h' : p a = false := by simpa using hpa
        have hrec := countP_le_one_of_key_pairwise hp hl
        simp [List.countP_cons, h']
        omega

theorem listUpsert_countP_eq_one {α : Type} {p : α → Bool} {f : α → α}
    {new : α} (hf : ∀ a, p a = true → p (f a) = true)
    (hnew : p new = true) {l : List α} (hle : l.countP p ≤ 1) :
    (listUpsert p f new l).countP p = 1 := by
  unfold listUpsert
  by_cases h : l.any p = true
  · simp only [h, if_true]
    rw [countP_guardedMap hf]
    rcases List.any_eq_true.mp h with ⟨a, ha, hpa⟩
    have hpos : 0 < l.countP p :=
      List.countP_pos_iff.mpr ⟨a, ha, hpa⟩
    omega
  · have h' : l.any p = false := by simpa using h
    rw [List.any_eq_false] at h'
    have hz : l.countP p = 0 :=
      List.countP_eq_zero.mpr (fun a ha => h' a ha)
    simp [h, List.countP_append, List.countP_cons, hnew, hz]

theorem listUpsert_content {α : Type} {p : α → Bool} {f : α → α}
    {new : α} {Q : α → Prop} (hf : ∀ a, p a = true → Q (f a))
    (hnew : Q new) {l : List α} :
    ∀ r ∈ listUpsert p f new l, p r = true → Q r := by
  intro r hr hpr
  unfold listUpsert at hr
  by_cases h : l.any p = true
  · simp only [h, if_true] at hr
    rcases List.mem_map.mp hr with ⟨a, _, rfl⟩
    by_cases hpa : p a = true
    · simpa [hpa] using hf a hpa
    · have h' : p a = false := by simpa using hpa
      simp [h'] at hpr
  · have h' : l.any p = false := by simpa using h
    simp only [h', Bool.false_eq_true, if_false] at hr
    rcases List.mem_append.mp hr with hone | htwo
    · rw [List.any_eq_false] at h'
      exact absurd hpr (by simpa using h' r hone)
    · rcases List.mem_singleton.mp htwo with rfl
      exact hnew

theorem listUpsert_pairwise {α β : Type} {k : α → β} {p : α → Bool}
    {f : α → α} {new : α} (hkf : ∀ a, k (f a) = k a)
    (hp : ∀ a, p a = true ↔ k a = k new) {l : List α}
    (h : l.Pairwise (fun a b => k a ≠ k b)) :
    (listUpsert p f new l).Pairwise (fun a b => k a ≠ k b) := by
  unfold listUpsert
  by_cases hany : l.any p = true
  · simp only [hany, if_true]
    rw [List.pairwise_map]
    refine h.imp (fun {a b} hab => ?_)
    have ga : k (if p a then f a else a) = k a := by
      by_cases hpa : p a = true
      · simp [hpa, hkf]
      · simp [hpa]
    have gb : k (if p b then f b else b) = k b := by
      by_cases hpb : p b = true
      · simp [hpb, hkf]
      · simp [hpb]
    rw [ga, gb]
    exact hab
  · have h' : l.any p = false := by simpa using hany
    simp only [h', Bool.false_eq_true, if_false]
    rw [List.pairwise_append]
    refine ⟨h, by simp, ?_⟩
    intro a ha b hb
    rcases List.mem_singleton.mp hb with rfl
    rw [List.any_eq_false] at h'
    intro hk
    have hna : ¬ p a = true := by simpa using h' a ha
    exact hna ((hp a).mpr hk)

theorem snapMatch_key_iff (u n : String) (r : PgSnapshotRow) :
    snapMatch u n r = true ↔ (r.userId, r.name) = (u, n) := by
  simp [snapMatch, Prod.ext_iff]

theorem restSnapMatch_key_iff (u n : String) (r : RestSnapshotRow) :
    restSnapMatch u n r = true ↔ (r.userId, r.name) = (u, n) := by
  simp [restSnapMatch, Prod.ext_iff]

/- ===== Claim C7 ===== -/

/-- C7: backend selection follows the stated precedence — under detected
ephemeral compute (any environment marker set) the REST store is chosen
when its URL and key are configured, else the structured store when its DSN
is; outside ephemeral compute the structured store is preferred; with
neither backend configured, construction fails fatally (`none`). -/
theorem C7_backend_selection (c : DbConfig) (e : EnvMarkers) :
    c7SelectorPrecedence c e := by
  unfold c7SelectorPrecedence
  refine ⟨by simp [isVercelEnvironment, bne_iff_ne, or_assoc], ?_, ?_, ?_⟩
  · intro hv
    constructor
    · rintro ⟨hu, hk⟩
      simp [newDatabase, hv, bne_iff_ne.mpr hu, bne_iff_ne.mpr hk]
    · intro hnot hdsn
      have hor : c.supabaseURL = "" ∨ c.supabaseKey = "" := by
        by_cases h1 : c.supabaseURL = ""
        · exact Or.inl h1
        · by_cases h2 : c.supabaseKey = ""
          · exact Or.inr h2
          · exact absurd ⟨h1, h2⟩ hnot
      have hcond : (c.supabaseURL != "" && c.supabaseKey != "") = false := by
        rcases hor with h | h <;> simp [h]
      simp [newDatabase, hv, hcond, bne_iff_ne.mpr hdsn]
  · intro hv
    constructor
    · intro hdsn
      simp [newDatabase, hv, bne_iff_ne.mpr hdsn]
    · intro hdsn hconf
      rcases hconf with ⟨hu, hk⟩
      simp [newDatabase, hv, hdsn, bne_iff_ne.mpr hu, bne_iff_ne.mpr hk]
  · rintro ⟨hdsn, hor⟩
    have hcond : (c.supabaseURL != "" && c.supabaseKey != "") = false := by
      rcases hor with h | h <;> simp [h]
    by_cases hv : isVercelEnvironment e = true
    · simp [newDatabase, hv, hcond, hdsn]
    · have hv' : isVercelEnvironment e = false := by simpa using hv
      simp [newDatabase, hv', hcond, hdsn]

/-- C7 witness: the selector evaluated at a concrete Vercel-marked
environment with only the REST store configured. -/
theorem C7_backend_selection_witness :
    c7SelectorPrecedence ⟨"", "https://x.supabase.co", "key"⟩
      ⟨"production", "", ""⟩ :=
  C7_backend_selection ⟨"", "https://x.supabase.co", "key"⟩
    ⟨"production", "", ""⟩

/- ===== Claim C4 ===== -/

/-- C4 counterexample: `DeleteSpace` on an existing space removes the row
outright — afterwards the spaces table is empty and no tombstone (a row
with the id and a non-null deleted-at) remains, contradicting the claim
that the row is retained with `deleted_at` set. -/
theorem C4_counterexample :
    (pgDeleteSpace ⟨[], [], [spaceRow1], [], [], []⟩ "s1").1 = .ok () ∧
    (pgDeleteSpace ⟨[], [], [spaceRow1], [], [], []⟩ "s1").2.spaces = [] ∧
    ¬ ∃ r ∈ (pgDeleteSpace ⟨[], [], [spaceRow1], [], [], []⟩ "s1").2.spaces,
        r.id = "s1" ∧ r.deletedAt ≠ none := by
  refine ⟨rfl, by decide, by decide⟩

/-- C4 amended: `DeleteSpace` performs a hard delete — it reports success,
afterwards no row with the given id exists, and every other row is kept
unchanged; no tombstone remains. -/
theorem C4_hard_delete (st : PgState) (spaceID : String) :
    c4HardDelete st spaceID := by
  unfold c4HardDelete pgDeleteSpace
  refine ⟨rfl, ?_, ?_⟩
  · intro r hr
    have h := List.mem_filter.mp hr
    simpa using h.2
  · intro r hr hne
    exact List.mem_filter.mpr ⟨hr, by simpa using hne⟩

/-- C4 witness: the amended statement evaluated on the fixture store. -/
theorem C4_hard_delete_witness : c4HardDelete pgFix "s1" :=
  C4_hard_delete pgFix "s1"

/- ===== Claim C3 ===== -/

/-- C3 counterexample: updating a user whose id is absent (empty store)
returns success — not a "not found" error — on both backends, leaving the
store unchanged. -/
theorem C3_counterexample :
    pgUpdateUser emptyPg ⟨"u9", "x@y", "", "N", "A", "google", "", 0, 0⟩ 7
      = (.ok (), emptyPg) ∧
    pgUpdateSpace emptyPg ⟨"s9", "o1", "N", "", false, 0, 0⟩ 7
      = (.ok (), emptyPg) ∧
    sbUpdateUser emptyRest ⟨"u9", "x@y", "", "N", "A", "google", "", 0, 0⟩
      = (.ok (), emptyRest) := by
  refine ⟨by decide, by decide, by decide⟩

/-- C3 amended: an update whose target id matches no row is a silent no-op —
it reports success (except that `UpdateUser` rejects an empty id) and leaves
the store unchanged — and updates never change the number of rows, so
nothing is silently created. -/
theorem C3_update_missing_noop (stP : PgState) (rst : RestState) (u : User)
    (s : Space) (now : Nat) : c3UpdateMissingIsNoop stP rst u s now := by
  unfold c3UpdateMissingIsNoop
  refine ⟨?_, ?_, ?_, ?_, ?_, ?_⟩
  · intro hne hall
    unfold pgUpdateUser
    rw [if_neg hne]
    have hmap : stP.users.map (fun r =>
        if r.id == u.id then
          { r with name := some u.name, avatar := some u.avatar,
                   provider := some u.provider, updatedAt := now }
        else r) = stP.users := by
      apply map_eq_self_on
      intro a ha
      have hfalse : (a.id == u.id) = false := by
        simpa using List.all_eq_true.mp hall a ha
      simp [hfalse]
    rw [hmap]
  · intro hall
    unfold pgUpdateSpace
    have hmap : stP.spaces.map (fun r =>
        if r.id == s.id then
          { r with name := s.name, description := s.description,
                   isDefault := s.isDefault, updatedAt := now }
        else r) = stP.spaces := by
      apply map_eq_self_on
      intro a ha
      have hfalse : (a.id == s.id) = false := by
        simpa using List.all_eq_true.mp hall a ha
      simp [hfalse]
    rw [hmap]
  · intro hall
    unfold sbUpdateUser
    have hmap : rst.users.map (fun r =>
        if r.id == u.id then
          { r with name := u.name, avatar := u.avatar,
                   provider := u.provider, tier := u.tier,
                   updatedAt := u.updatedAt }
        else r) = rst.users := by
      apply map_eq_self_on
      intro a ha
      have hfalse : (a.id == u.id) = false := by
        simpa using List.all_eq_true.mp hall a ha
      simp [hfalse]
    rw [hmap]
  · unfold pgUpdateUser
    by_cases h : u.id = "" <;> simp [h]
  · unfold pgUpdateSpace
    simp
  · unfold sbUpdateUser
    simp

/-- C3 witness: the amended statement evaluated on the fixture stores with
ids absent from them. -/
theorem C3_update_missing_noop_witness :
    c3UpdateMissingIsNoop pgFix restFix
      ⟨"u9", "x@y", "", "N", "A", "google", "", 0, 0⟩
      ⟨"s9", "o1", "N", "", false, 0, 0⟩ 9 :=
  C3_update_missing_noop pgFix restFix
    ⟨"u9", "x@y", "", "N", "A", "google", "", 0, 0⟩
    ⟨"s9", "o1", "N", "", false, 0, 0⟩ 9

/- ===== Claim C2 ===== -/

/-- C2: calling SaveSnapshot twice with the same `(user, name)` and
different tab-group lists leaves exactly one logical row for that key,
holding the second call's groups with `group_count` the number of groups and
`tab_count` the total tab count, on both the structured store (ON CONFLICT
upsert) and the REST store (get-then-PATCH/POST); the states are assumed to
satisfy the declared `(user_id, name)` uniqueness. -/
theorem C2_snapshot_idempotent_upsert (stP : PgState) (rst : RestState)
    (u n : String) (g1 g2 : List TabGroup) (t1 t2 t3 t4 : Nat)
    (hP : snapKeyUnique stP.snapshots)
    (hR : restSnapKeyUnique rst.snapshots) :
    pgOneSnapshotWith (pgSaveSnapshot (pgSaveSnapshot stP u n g1 t1) u n g2 t2)
      u n g2 ∧
    restOneSnapshotWith (sbSaveSnapshot (sbSaveSnapshot rst u n g1 t3) u n g2 t4)
      u n g2 := by
  unfold snapKeyUnique at hP
  unfold restSnapKeyUnique at hR
  constructor
  · have hkey : ∀ a b : PgSnapshotRow, snapMatch u n a = true →
        snapMatch u n b = true → (a.userId, a.name) = (b.userId, b.name) := by
      intro a b ha hb
      rw [(snapMatch_key_iff u n a).mp ha, (snapMatch_key_iff u n b).mp hb]
    have hle : stP.snapshots.countP (snapMatch u n) ≤ 1 :=
      countP_le_one_of_key_pairwise
        (k := fun r : PgSnapshotRow => (r.userId, r.name)) hkey hP
    have h1count :
        (pgSaveSnapshot stP u n g1 t1).snapshots.countP (snapMatch u n) = 1 := by
      simp only [pgSaveSnapshot]
      refine listUpsert_countP_eq_one ?_ ?_ hle
      · intro a ha
        exact ha
      · simp [snapMatch]
    constructor
    · simp only [pgSaveSnapshot]
      refine listUpsert_countP_eq_one ?_ ?_ (le_of_eq h1count)
      · intro a ha
        exact ha
      · simp [snapMatch]
    · intro r hr hpr
      exact listUpsert_content
        (Q := fun r : PgSnapshotRow => r.tabGroups = g2 ∧
          r.groupCount = g2.length ∧ r.tabCount = tabGroupsTabCount g2)
        (fun a _ => ⟨rfl, rfl, rfl⟩) ⟨rfl, rfl, rfl⟩ r hr hpr
  · have hkey : ∀ a b : RestSnapshotRow, restSnapMatch u n a = true →
        restSnapMatch u n b = true →
        (a.userId, a.name) = (b.userId, b.name) := by
      intro a b ha hb
      rw [(restSnapMatch_key_iff u n a).mp ha,
        (restSnapMatch_key_iff u n b).mp hb]
    have hle : rst.snapshots.countP (restSnapMatch u n) ≤ 1 :=
      countP_le_one_of_key_pairwise
        (k := fun r : RestSnapshotRow => (r.userId, r.name)) hkey hR
    have h1count :
        (sbSaveSnapshot rst u n g1 t3).snapshots.countP (restSnapMatch u n)
          = 1 := by
      simp only [sbSaveSnapshot]
      refine listUpsert_countP_eq_one ?_ ?_ hle
      · intro a ha
        simp [restSnapMatch]
      · simp [restSnapMatch]
    constructor
    · simp only [sbSaveSnapshot]
      refine listUpsert_countP_eq_one ?_ ?_ (le_of_eq h1count)
      · intro a ha
        simp [restSnapMatch]
      · simp [restSnapMatch]
    · intro r hr hpr
      exact listUpsert_content
        (Q := fun r : RestSnapshotRow => r.tabGroups = g2 ∧
          r.groupCount = g2.length ∧ r.tabCount = tabGroupsTabCount g2)
        (fun a _ => ⟨rfl, rfl, rfl⟩) ⟨rfl, rfl, rfl⟩ r hr hpr

/-- C2 witness: saving `work` twice (first two groups with three tabs, then
one group with one tab) starting from empty stores, whose key-uniqueness
holds trivially. -/
theorem C2_snapshot_idempotent_upsert_witness :
    pgOneSnapshotWith (pgSaveSnapshot (pgSaveSnapshot emptyPg "u1" "work"
        [groupOne, groupTwo] 1) "u1" "work" [groupOne] 2) "u1" "work"
      [groupOne] ∧
    restOneSnapshotWith (sbSaveSnapshot (sbSaveSnapshot emptyRest "u1" "work"
        [groupOne, groupTwo] 3) "u1" "work" [groupOne] 4) "u1" "work"
      [groupOne] :=
  C2_snapshot_idempotent_upsert emptyPg emptyRest "u1" "work"
    [groupOne, groupTwo] [groupOne] 1 2 3 4
    (by simp [snapKeyUnique, emptyPg]) (by simp [restSnapKeyUnique, emptyRest])

/- ===== Claim C5 ===== -/

/-- C5: on the structured store, `DeleteCollection` is all-or-nothing — on
success the collection exists, it and every one of its items end up with a
non-null deleted-at; on any injected step failure (or a missing collection,
which always errors) the call returns an error and the store is unchanged. -/
theorem C5_delete_collection_atomic (st : PgState) (id : String) (now : Nat)
    (fail : DelStep) : c5CascadeAtomic st id now fail := by
  unfold c5CascadeAtomic
  by_cases hm : (st.collections.filter (fun c => c.id == id)).length = 0
  · -- no matching collection, or an early failure: every path errors
    have hres : ∀ g : DelStep, (pgDeleteCollection st id now g).1 ≠ .ok () ∧
        (pgDeleteCollection st id now g).2 = st := by
      intro g
      cases g <;> simp [pgDeleteCollection, hm]
    refine ⟨?_, ?_, ?_⟩
    · intro hok
      exact absurd hok (hres fail).1
    · intro e _
      exact (hres fail).2
    · intro _
      rcases h : (pgDeleteCollection st id now fail).1 with _ | e
      · exact absurd h (hres fail).1
      · exact ⟨e, rfl⟩
  · -- the collection exists
    have hex : ∃ c ∈ st.collections, c.id = id := by
      rcases hl : st.collections.filter (fun c => c.id == id) with _ | ⟨x, xs⟩
      · rw [hl] at hm
        simp at hm
      · have hx : x ∈ st.collections.filter (fun c => c.id == id) := by
          rw [hl]
          exact List.mem_cons_self x xs
        rcases List.mem_filter.mp hx with ⟨hmem, hid⟩
        exact ⟨x, hmem, by simpa using hid⟩
    cases fail with
    | noFail =>
      have hcoll : (pgDeleteCollection st id now .noFail).2.collections =
          st.collections.map (fun a =>
            if a.id == id then
              { a with deletedAt := some now, updatedAt := now }
            else a) := by
        simp only [pgDeleteCollection]
        rw [if_neg (by simp), if_neg (by simp), if_neg hm,
          if_neg (by simp), if_neg (by simp)]
      have hitems : (pgDeleteCollection st id now .noFail).2.items =
          st.items.map (fun a =>
            if a.collectionId == id then
              { a with deletedAt := some now, updatedAt := now }
            else a) := by
        simp only [pgDeleteCollection]
        rw [if_neg (by simp), if_neg (by simp), if_neg hm,
          if_neg (by simp), if_neg (by simp)]
      refine ⟨?_, ?_, ?_⟩
      · intro _
        refine ⟨hex, ?_, ?_, ?_⟩
        · intro c hc hcid
          rw [hcoll] at hc
          rcases List.mem_map.mp hc with ⟨a, _, rfl⟩
          by_cases ha : (a.id == id) = true
          · simp [ha]
          · have ha' : (a.id == id) = false := by simpa using ha
            rw [if_neg (by simp [ha'])] at hcid ⊢
            exact absurd hcid (by simpa using ha')
        · rcases hex with ⟨c, hc, hcid⟩
          rw [hcoll]
          refine ⟨if c.id == id then
              { c with deletedAt := some now, updatedAt := now } else c,
            List.mem_map.mpr ⟨c, hc, rfl⟩, ?_⟩
          rw [if_pos (by simp [hcid])]
          exact hcid
        · intro it hit hitc
          rw [hitems] at hit
          rcases List.mem_map.mp hit with ⟨a, _, rfl⟩
          by_cases ha : (a.collectionId == id) = true
          · simp [ha]
          · have ha' : (a.collectionId == id) = false := by simpa using ha
            rw [if_neg (by simp [ha'])] at hitc ⊢
            exact absurd hitc (by simpa using ha')
      · intro e he
        simp [pgDeleteCollection, hm] at he
      · intro hall
        rcases hex with ⟨c, hc, hcid⟩
        have := List.all_eq_true.mp hall c hc
        simp [hcid] at this
    | failBegin =>
      refine ⟨?_, fun e _ => ?_, fun _ => ?_⟩
      · intro hok
        simp [pgDeleteCollection] at hok
      · simp [pgDeleteCollection]
      · exact ⟨.plain "begin failed", by simp [pgDeleteCollection]⟩
    | failCollections =>
      refine ⟨?_, fun e _ => ?_, fun _ => ?_⟩
      · intro hok
        simp [pgDeleteCollection] at hok
      · simp [pgDeleteCollection]
      · exact ⟨.plain "exec failed", by simp [pgDeleteCollection]⟩
    | failItems =>
      refine ⟨?_, fun e _ => ?_, fun _ => ?_⟩
      · intro hok
        simp [pgDeleteCollection, hm] at hok
      · simp [pgDeleteCollection, hm]
      · exact ⟨.plain "exec failed", by simp [pgDeleteCollection, hm]⟩
    | failCommit =>
      refine ⟨?_, fun e _ => ?_, fun _ => ?_⟩
      · intro hok
        simp [pgDeleteCollection, hm] at hok
      · simp [pgDeleteCollection, hm]
      · exact ⟨.plain "commit failed", by simp [pgDeleteCollection, hm]⟩

/-- C5 witness: deleting the fixture collection `c1` (two items) with no
injected failure. -/
theorem C5_delete_collection_atomic_witness :
    c5CascadeAtomic pgFix "c1" 5 DelStep.noFail :=
  C5_delete_collection_atomic pgFix "c1" 5 DelStep.noFail

/- ===== Claim C1 ===== -/

/-- C1 counterexample: after a successful `DeleteCollection` of `c1`, the
Postgres `ListCollectionsBySpace` (which has no since-parameter at all)
still returns the deleted collection, with its deleted-at set — refuting
the claim that it excludes every collection previously deleted. -/
theorem C1_counterexample :
    (pgDeleteCollection ⟨[], [], [], [collRow1], [itemRow1], []⟩
      "c1" 5 DelStep.noFail).1 = .ok () ∧
    ∃ c ∈ pgListCollectionsBySpace
        (pgDeleteCollection ⟨[], [], [], [collRow1], [itemRow1], []⟩
          "c1" 5 DelStep.noFail).2 "s1",
      c.id = "c1" ∧ c.deletedAt ≠ none := by
  refine ⟨rfl, by decide⟩

/-- C1 amended: Postgres `ListSpacesByOrganization` indeed returns only
rows with a null deleted-at; Postgres `ListCollectionsBySpace` returns every
row of the space including tombstones (the no-since filtering lives in the
HTTP handler, which keeps exactly the rows without deleted-at); and the
REST `ListSpacesByOrganization` sends no deleted-at filter, so it returns
soft-deleted rows too. -/
theorem C1_soft_delete_visibility (stP : PgState) (orgID spaceID : String)
    (list : List Collection) (rst : RestState) :
    c1SpacesExcludeDeleted stP orgID ∧
    c1CollectionsKeepTombstones stP spaceID ∧
    c1HandlerDropsTombstones list ∧
    c1RestSpacesNoFilter rst orgID := by
  refine ⟨?_, ?_, ?_, ?_⟩
  · intro sp hsp
    unfold pgListSpacesByOrganization at hsp
    rcases List.mem_map.mp hsp with ⟨r, hr, rfl⟩
    rw [mem_insertionSortB] at hr
    rcases List.mem_filter.mp hr with ⟨hmem, hcond⟩
    rw [Bool.and_eq_true] at hcond
    exact ⟨r, hmem, by simpa using hcond.1, by simpa using hcond.2, rfl⟩
  · intro r hr hsid
    unfold pgListCollectionsBySpace
    refine List.mem_map.mpr ⟨r, ?_, rfl⟩
    rw [mem_insertionSortB]
    exact List.mem_filter.mpr ⟨hr, by simp [hsid]⟩
  · intro cc
    unfold handlerFilterCollections
    constructor
    · intro h
      rcases List.mem_filter.mp h with ⟨hm, hc⟩
      exact ⟨hm, by simpa using hc⟩
    · rintro ⟨hm, hd⟩
      exact List.mem_filter.mpr ⟨hm, by simp [hd]⟩
  · intro r hr horg
    unfold sbListSpacesByOrganization
    exact List.mem_map.mpr ⟨r, List.mem_filter.mpr ⟨hr, by simp [horg]⟩, rfl⟩

/-- C1 witness: the amended statement on the fixture stores, which contain
a tombstoned space row on both backends. -/
theorem C1_soft_delete_visibility_witness :
    c1SpacesExcludeDeleted pgFix "o1" ∧
    c1CollectionsKeepTombstones pgFix "s1" ∧
    c1HandlerDropsTombstones
      [⟨"c1", "s1", "C", "", "", "", 0, 1, 1, none⟩,
       ⟨"c2", "s1", "D", "", "", "", 1, 1, 4, some 4⟩] ∧
    c1RestSpacesNoFilter restFix "o1" :=
  C1_soft_delete_visibility pgFix "o1" "s1"
    [⟨"c1", "s1", "C", "", "", "", 0, 1, 1, none⟩,
     ⟨"c2", "s1", "D", "", "", "", 1, 1, 4, some 4⟩] restFix

/- ===== Claim C6 ===== -/

/-- C6: with no existing row for `(s1, u1)` and a healthy REST server (a
zero-match filtered PATCH is an HTTP 200, hence no request error), the
`SetSpacePermission` upsert emulation returns success without ever issuing
the POST fallback: afterwards no row at all exists for the pair, although
its own comment says "if none affected then insert".  This evaluates the
code at the failing input of the code-bug report. -/
theorem C6_patch_miss_skips_insert :
    sbSetSpacePermission emptyRest "s1" "u1" true false
      = (.ok (), emptyRest) ∧
    ((sbSetSpacePermission emptyRest "s1" "u1" true false).2.perms.countP
      (fun r => r.spaceId == "s1" && r.userId == "u1")) = 0 ∧
    (sbSetSpacePermission emptyRest "s1" "u1" true true).2.perms
      = [⟨"s1", "u1", true⟩] := by
  refine ⟨by decide, by decide, by decide⟩

/- ===== Claim C9 ===== -/

/-- C9 counterexample: on the REST backend, the not-found error of
`GetOrganization` and the error produced by a failing backend response are
both plain message-only strings — after erasing message text they are
identical, so they are not programmatically distinguishable without
inspecting message text. -/
theorem C9_counterexample :
    sbGetOrganization emptyRest "o1" none
      = .err (.plain "organization not found") ∧
    sbGetOrganization emptyRest "o1" (some (500, "oops"))
      = .err (.plain "API request failed with status 500: oops") ∧
    eraseMsg (.plain "organization not found")
      = eraseMsg (.plain "API request failed with status 500: oops") := by
  refine ⟨rfl, by decide, rfl⟩

/-- C9 amended: not-found surfaces as the fixed plain string
`organization not found` on both backends; the Postgres query failure is a
wrapping error (so there the two differ in shape, though only by the absence
of a wrapped cause — no not-found sentinel exists), while the REST HTTP
failure is another plain string with the same erased shape as not-found, so
on the REST backend the two kinds are distinguishable only by message
text. -/
theorem C9_error_taxonomy (stP : PgState) (rst : RestState) (orgID : String)
    (cause : GoError) (code : Nat) (body : String) :
    c9ErrorTaxonomy stP rst orgID cause code body := by
  unfold c9ErrorTaxonomy
  refine ⟨?_, rfl, ?_, rfl, rfl, by simp [eraseMsg]⟩
  · intro hall
    have hfind : stP.orgs.find? (fun r => r.id == orgID) = none := by
      refine List.find?_eq_none.mpr (fun a ha => ?_)
      simpa using List.all_eq_true.mp hall a ha
    simp [pgGetOrganization, hfind]
  · intro hall
    have hfilter : rst.orgs.filter (fun r => r.id == orgID) = [] := by
      rw [List.filter_eq_nil_iff]
      intro a ha
      simpa using List.all_eq_true.mp hall a ha
    simp [sbGetOrganization, hfilter]

/-- C9 witness: the amended taxonomy at the fixture stores, an id absent
from both, a concrete wrapped driver cause, and a concrete failing
response. -/
theorem C9_error_taxonomy_witness :
    c9ErrorTaxonomy pgFix restFix "zz" (.sentinel "driver.ErrBadConn")
      500 "oops" :=
  C9_error_taxonomy pgFix restFix "zz" (.sentinel "driver.ErrBadConn")
    500 "oops"

/- ===== Claim C10 ===== -/

/-- C10: Postgres `GetUserByID` populates only id, email and the
timestamps, hard-codes provider to `email` and leaves name, avatar and
password at their zero values, while `GetUserByEmail` returns the stored
provider — so for any stored provider other than `email` the two reads
disagree on the provider field. -/
theorem C10_get_user_provider (st : PgState) (id em : String)
    (r : PgUserRow) (p : String) : c10ProviderMismatch st id em r p := by
  unfold c10ProviderMismatch
  refine ⟨?_, ?_, ?_⟩
  · intro hfind
    unfold pgGetUserByID
    rw [hfind]
    exact ⟨_, rfl, rfl, rfl, rfl, rfl, rfl, rfl, rfl, rfl⟩
  · intro hfind hp
    unfold pgGetUserByEmail
    rw [hfind]
    exact ⟨_, rfl, by simp [coalesce, hp], rfl, rfl⟩
  · intro hid hem hp hne
    refine ⟨⟨r.id, r.email, "", "", "", "email", "", r.createdAt, r.updatedAt⟩,
      ⟨r.id, r.email, coalesce r.password "", coalesce r.name "",
       coalesce r.avatar "", coalesce r.provider "email", "",
       r.createdAt, r.updatedAt⟩, ?_, ?_, ?_⟩
    · unfold pgGetUserByID
      rw [hid]
    · unfold pgGetUserByEmail
      rw [hem]
    · show "email" ≠ coalesce r.provider "email"
      rw [hp]
      intro hcontra
      have hep : "email" = p := by simpa [coalesce] using hcontra
      exact hne hep.symm

/-- C10 witness: the fixture user `u1` is stored with provider `google`;
the two reads disagree on it. -/
theorem C10_get_user_provider_witness :
    c10ProviderMismatch pgFix "u1" "a@b.com" userRow1 "google" :=
  C10_get_user_provider pgFix "u1" "a@b.com" userRow1 "google"

/- ===== Claim C8: clause lemmas ===== -/

theorem clauseFor_key (k : String) (v : GoVal) :
    ∀ c ∈ clauseFor k v, c.1 = k := by
  intro c hc
  cases v <;> simp only [clauseFor] at hc <;> split_ifs at hc <;> simp_all

theorem clauseFor_nil_of_unlisted (k : String) (v : GoVal)
    (h : itemFieldWhitelist.contains k = false) : clauseFor k v = [] := by
  simp [itemFieldWhitelist] at h
  obtain ⟨h1, h2, h3, h4, h5, h6, h7, h8, h9⟩ := h
  cases v <;> simp [clauseFor, h1, h2, h3, h4, h5, h6, h7, h8, h9]

theorem collectClauses_filter_whitelist (patch : List (String × GoVal)) :
    collectClauses
      (patch.filter (fun kv => itemFieldWhitelist.contains kv.1)) =
      collectClauses patch := by
  induction patch with
  | nil => rfl
  | cons kv rest ih =>
    by_cases hw : itemFieldWhitelist.contains kv.1 = true
    · simp only [List.filter_cons]
      rw [hw, if_pos rfl]
      simp only [collectClauses]
      rw [ih]
    · have hw' : itemFieldWhitelist.contains kv.1 = false := by simpa using hw
      simp only [List.filter_cons]
      rw [hw', if_neg (by simp)]
      simp only [collectClauses]
      rw [ih, clauseFor_nil_of_unlisted kv.1 kv.2 hw']
      rfl

theorem collectClauses_nil_of_unlisted (patch : List (String × GoVal))
    (h : patch.all (fun kv => !(itemFieldWhitelist.contains kv.1)) = true) :
    collectClauses patch = [] := by
  induction patch with
  | nil => rfl
  | cons kv rest ih =>
    rw [List.all_cons, Bool.and_eq_true] at h
    obtain ⟨h1, h2⟩ := h
    have h1' : itemFieldWhitelist.contains kv.1 = false := by simpa using h1
    simp [collectClauses, clauseFor_nil_of_unlisted kv.1 kv.2 h1', ih h2]

theorem collectClauses_no_key (patch : List (String × GoVal)) (key : String)
    (h : patchHasKey patch key = false) :
    ∀ c ∈ collectClauses patch, c.1 ≠ key := by
  induction patch with
  | nil =>
    intro c hc
    simp [collectClauses] at hc
  | cons kv rest ih =>
    intro c hc
    unfold patchHasKey at h
    rw [List.any_cons] at h
    rcases Bool.or_eq_false_iff.mp h with ⟨hk, hrest⟩
    rw [collectClauses] at hc
    rcases List.mem_append.mp hc with h1 | h2
    · rw [clauseFor_key kv.1 kv.2 c h1]
      simpa using hk
    · exact ih hrest c h2

theorem applyClause_keeps (r : PgItemRow) (c : String × GoVal) :
    (applyClause r c).id = r.id ∧
    (applyClause r c).createdAt = r.createdAt ∧
    (applyClause r c).deletedAt = r.deletedAt := by
  unfold applyClause
  split_ifs <;> exact ⟨rfl, rfl, rfl⟩

theorem applyClauses_keeps (cs : List (String × GoVal)) (r : PgItemRow) :
    (applyClauses r cs).id = r.id ∧
    (applyClauses r cs).createdAt = r.createdAt ∧
    (applyClauses r cs).deletedAt = r.deletedAt := by
  induction cs generalizing r with
  | nil => exact ⟨rfl, rfl, rfl⟩
  | cons c cs ih =>
    have h1 := applyClause_keeps r c
    have h2 := ih (applyClause r c)
    exact ⟨h2.1.trans h1.1, h2.2.1.trans h1.2.1, h2.2.2.trans h1.2.2⟩

theorem applyClauses_frame {γ : Type} (P : PgItemRow → γ) (key : String)
    (hP : ∀ r c, c.1 ≠ key → P (applyClause r c) = P r) :
    ∀ (cs : List (String × GoVal)) (r : PgItemRow),
      (∀ c ∈ cs, c.1 ≠ key) → P (applyClauses r cs) = P r
  | [], _, _ => rfl
  | c :: cs, r, h => by
      have hc := hP r c (h c (List.mem_cons_self c cs))
      have hrec := applyClauses_frame P key hP cs (applyClause r c)
        (fun d hd => h d (List.mem_cons_of_mem c hd))
      exact hrec.trans hc

theorem applyClause_frame_collectionId (r : PgItemRow) (c : String × GoVal)
    (h : c.1 ≠ "collection_id") :
    (applyClause r c).collectionId = r.collectionId := by
  unfold applyClause
  split_ifs <;> simp_all

theorem applyClause_frame_title (r : PgItemRow) (c : String × GoVal)
    (h : c.1 ≠ "title") : (applyClause r c).title = r.title := by
  unfold applyClause
  split_ifs <;> simp_all

theorem applyClause_frame_url (r : PgItemRow) (c : String × GoVal)
    (h : c.1 ≠ "url") : (applyClause r c).url = r.url := by
  unfold applyClause
  split_ifs <;> simp_all

theorem applyClause_frame_favIconUrl (r : PgItemRow) (c : String × GoVal)
    (h : c.1 ≠ "fav_icon_url") :
    (applyClause r c).favIconUrl = r.favIconUrl := by
  unfold applyClause
  split_ifs <;> simp_all

theorem applyClause_frame_originalTitle (r : PgItemRow) (c : String × GoVal)
    (h : c.1 ≠ "original_title") :
    (applyClause r c).originalTitle = r.originalTitle := by
  unfold applyClause
  split_ifs <;> simp_all

theorem applyClause_frame_aiGeneratedTitle (r : PgItemRow)
    (c : String × GoVal) (h : c.1 ≠ "ai_generated_title") :
    (applyClause r c).aiGeneratedTitle = r.aiGeneratedTitle := by
  unfold applyClause
  split_ifs <;> simp_all

theorem applyClause_frame_domain (r : PgItemRow) (c : String × GoVal)
    (h : c.1 ≠ "domain") : (applyClause r c).domain = r.domain := by
  unfold applyClause
  split_ifs <;> simp_all

theorem applyClause_frame_metadata (r : PgItemRow) (c : String × GoVal)
    (h : c.1 ≠ "metadata") : (applyClause r c).metadata = r.metadata := by
  unfold applyClause
  split_ifs <;> simp_all

theorem applyClause_frame_position (r : PgItemRow) (c : String × GoVal)
    (h : c.1 ≠ "position") : (applyClause r c).position = r.position := by
  unfold applyClause
  split_ifs <;> simp_all

/- ===== Claim C8 ===== -/

/-- C8: for a stored item and any patch map, the sparse update touches only
the whitelisted fields named in the patch (plus updated-at), ignores unknown
field names without error, leaves every unnamed field with its prior value,
and skips the write entirely (row and updated-at unchanged, success
returned) when the patch produces no SET clause. -/
theorem C8_sparse_update_whitelist (st : PgState) (itemID : String)
    (patch : List (String × GoVal)) (now : Nat)
    (hid : goTrimSpace itemID ≠ "") :
    c8SparseUpdateOK st itemID patch now := by
  unfold c8SparseUpdateOK
  have hfix : ∀ q : List (String × GoVal),
      pgUpdateItemSparse st itemID q now =
      (if (collectClauses q).isEmpty then ((.ok (), st) : GoResult Unit × PgState)
       else (.ok (), { st with items := st.items.map (fun r =>
         if r.id == itemID then
           { applyClauses r (collectClauses q) with updatedAt := now }
         else r) })) := by
    intro q
    unfold pgUpdateItemSparse
    rw [if_neg hid]
  refine ⟨?_, ?_, ?_, ?_, ?_, ?_⟩
  · rw [hfix patch]
    by_cases hq : (collectClauses patch).isEmpty <;> simp [hq]
  · rw [hfix patch, hfix (patch.filter (fun kv =>
      itemFieldWhitelist.contains kv.1)), collectClauses_filter_whitelist]
  · intro hall
    rw [hfix patch, collectClauses_nil_of_unlisted patch hall]
    rfl
  · intro hnil
    rw [hfix patch, hnil]
    rfl
  · intro i r hir hne
    rw [hfix patch]
    rcases hcase : collectClauses patch with _ | ⟨c0, cs0⟩
    · simpa using hir
    · have hbe : (r.id == itemID) = false := by simpa using hne
      simp only [List.isEmpty_cons, Bool.false_eq_true, if_false]
      rw [List.getElem?_map, hir]
      exact congrArg some (if_neg (by simp [hbe]))
  · intro i r hir heq
    rw [hfix patch]
    rcases hcase : collectClauses patch with _ | ⟨c0, cs0⟩
    · refine ⟨r, by simpa using hir, rfl, rfl, rfl,
        fun _ => rfl, fun _ => rfl, fun _ => rfl, fun _ => rfl,
        fun _ => rfl, fun _ => rfl, fun _ => rfl, fun _ => rfl,
        fun _ => rfl, fun hne => absurd rfl hne, fun _ => rfl⟩
    · have hbe : (r.id == itemID) = true := by simp [heq]
      have hkeeps := applyClauses_keeps (c0 :: cs0) r
      refine ⟨{ applyClauses r (c0 :: cs0) with updatedAt := now }, ?_,
        hkeeps.1, hkeeps.2.1, hkeeps.2.2, ?_, ?_, ?_, ?_, ?_, ?_, ?_, ?_,
        ?_, fun _ => rfl, fun hnil => absurd hnil (by simp)⟩
      · simp only [List.isEmpty_cons, Bool.false_eq_true, if_false]
        rw [List.getElem?_map, hir]
        exact congrArg some (if_pos (by simp [heq]))
      · intro h
        have hkeys := hcase ▸ collectClauses_no_key patch "collection_id" h
        exact applyClauses_frame (fun x => x.collectionId) "collection_id"
          applyClause_frame_collectionId (c0 :: cs0) r hkeys
      · intro h
        have hkeys := hcase ▸ collectClauses_no_key patch "title" h
        exact applyClauses_frame (fun x => x.title) "title"
          applyClause_frame_title (c0 :: cs0) r hkeys
      · intro h
        have hkeys := hcase ▸ collectClauses_no_key patch "url" h
        exact applyClauses_frame (fun x => x.url) "url"
          applyClause_frame_url (c0 :: cs0) r hkeys
      · intro h
        have hkeys := hcase ▸ collectClauses_no_key patch "fav_icon_url" h
        exact applyClauses_frame (fun x => x.favIconUrl) "fav_icon_url"
          applyClause_frame_favIconUrl (c0 :: cs0) r hkeys
      · intro h
        have hkeys := hcase ▸ collectClauses_no_key patch "original_title" h
        exact applyClauses_frame (fun x => x.originalTitle) "original_title"
          applyClause_frame_originalTitle (c0 :: cs0) r hkeys
      · intro h
        have hkeys := hcase ▸ collectClauses_no_key patch
          "ai_generated_title" h
        exact applyClauses_frame (fun x => x.aiGeneratedTitle)
          "ai_generated_title" applyClause_frame_aiGeneratedTitle
          (c0 :: cs0) r hkeys
      · intro h
        have hkeys := hcase ▸ collectClauses_no_key patch "domain" h
        exact applyClauses_frame (fun x => x.domain) "domain"
          applyClause_frame_domain (c0 :: cs0) r hkeys
      · intro h
        have hkeys := hcase ▸ collectClauses_no_key patch "metadata" h
        exact applyClauses_frame (fun x => x.metadata) "metadata"
          applyClause_frame_metadata (c0 :: cs0) r hkeys
      · intro h
        have hkeys := hcase ▸ collectClauses_no_key patch "position" h
        exact applyClauses_frame (fun x => x.position) "position"
          applyClause_frame_position (c0 :: cs0) r hkeys

/-- C8 witness: patching item `i1` of the fixture store with a new title
plus an unknown field name. -/
theorem C8_sparse_update_whitelist_witness :
    c8SparseUpdateOK pgFix "i1"
      [("title", GoVal.str "X"), ("bogus", GoVal.num 3)] 9 :=
  C8_sparse_update_whitelist pgFix "i1"
    [("title", GoVal.str "X"), ("bogus", GoVal.num 3)] 9 (by decide)

end TabSync
